import Mathlib

/-!
# Verification of the SPARQL ingest processor core

A shallow embedding, in Lean 4, of the query-synthesis and
transaction-buffering core of the `sparql-ingest-processor-ts`
repository (`src/SPARQLIngest.ts`, `src/SPARQLQueries.ts`,
`src/Utils.ts`), together with theorems settling the frozen claims
about that code.

Modelling conventions:
* RDF terms are the inductive `TermT`; an in-memory quad store
  (`n3` `Store` / `rdf-stores` `RdfStore`) is a duplicate-free
  `List Quad` in insertion order, with `addQuad` performing the
  libraries' add-if-absent behaviour and `getQuads` their indexed
  wildcard lookup.
* RDF parsing and N-Quads serialization are external libraries in the
  repository; serialization is modelled by `quadsToString` (only its
  output being an opaque text block matters to any claim).
* JavaScript exceptions (`throw`) are modelled with `Except String`;
  a JavaScript `TypeError` caused by dereferencing `undefined` is
  modelled as an `Except.error "TypeError"`.
* SPARQL query strings are built with the exact template-literal text
  of the source (braces written with escapes).
-/

/-- RDF term, mirroring the `@rdfjs/types` term model used by the code
(named node, blank node, literal with datatype, default graph). -/
inductive TermT where
  | namedNode (value : String)
  | blankNode (value : String)
  | literal (value : String) (datatype : String)
  | defaultGraph
  deriving DecidableEq

/-- The `.value` accessor of an RDF/JS term (`""` for the default graph). -/
def TermT.value : TermT → String
  | .namedNode v => v
  | .blankNode v => v
  | .literal v _ => v
  | .defaultGraph => ""

/-- The `termType === "BlankNode"` check. -/
def TermT.isBlankNode : TermT → Bool
  | .blankNode _ => true
  | _ => false

/-- The `termType === "NamedNode"` check. -/
def TermT.isNamedNode : TermT → Bool
  | .namedNode _ => true
  | _ => false

/-- An RDF quad `(subject, predicate, object, graph)`. -/
structure Quad where
  subject : TermT
  predicate : TermT
  object : TermT
  graph : TermT
  deriving DecidableEq

/-- A quad in the default graph, as produced by `DataFactory.quad(s, p, o)`. -/
def triple (s p o : TermT) : Quad := ⟨s, p, o, .defaultGraph⟩

/-- A quad store is a duplicate-free list of quads in insertion order. -/
abbrev StoreT := List Quad

/-- `store.addQuad(q)`: both `n3` and `rdf-stores` ignore a quad already
present. -/
def addQuad (s : StoreT) (q : Quad) : StoreT :=
  if q ∈ s then s else s ++ [q]

/-- `store.addQuads(qs)` / `qs.forEach(q => store.addQuad(q))`. -/
def addQuads (s : StoreT) (qs : List Quad) : StoreT :=
  qs.foldl addQuad s

/-- `new Store(quads)`: building a store from a parsed quad list. -/
def mkStore (qs : List Quad) : StoreT := addQuads [] qs

/-- `store.removeQuad(q)`. -/
def removeQuad (s : StoreT) (q : Quad) : StoreT :=
  s.filter (fun x => !decide (x = q))

/-- `store.removeQuads(qs)`. -/
def removeQuads (s : StoreT) (qs : List Quad) : StoreT :=
  qs.foldl removeQuad s

/-- Wildcard position of a store lookup: `null`/`undefined` matches any
term, a term matches only itself. -/
def matchesTerm (x : Option TermT) (t : TermT) : Bool :=
  match x with
  | none => true
  | some v => decide (t = v)

/-- `store.getQuads(s, p, o, g)` with `null` wildcards. -/
def getQuads (store : StoreT) (s p o g : Option TermT) : List Quad :=
  store.filter (fun q =>
    matchesTerm s q.subject && matchesTerm p q.predicate &&
    matchesTerm o q.object && matchesTerm g q.graph)

/-- `getSubjects(store, predicate, object, graph)` from `src/Utils.ts`. -/
def getSubjects (store : StoreT) (predicate object : Option TermT)
    (graph : Option TermT := none) : List TermT :=
  (getQuads store none predicate object graph).map Quad.subject

/-- `getObjects(store, subject, predicate, graph)` from `src/Utils.ts`. -/
def getObjects (store : StoreT) (subject predicate : Option TermT)
    (graph : Option TermT := none) : List TermT :=
  (getQuads store subject predicate none graph).map Quad.object

/-! ## Oversize splitter (`splitStore`, `src/Utils.ts` lines 42-92) -/

/-- The separator-free "seen" key
`subject.value + predicate.value + object.value + graph.value`
used by `splitStore`'s `bnSet`. -/
def quadKey (q : Quad) : String :=
  q.subject.value ++ q.predicate.value ++ q.object.value ++ q.graph.value

/-- `bnSet.add(k)` on the `Set<string>` of seen keys. -/
def addKey (ks : List String) (k : String) : List String :=
  if k ∈ ks then ks else ks ++ [k]

/-- The closure pull of `splitStore`: for a blank node `t`,
`[...store.getQuads(t), ...store.getQuads(null, null, t)].forEach(q => {
subStore.addQuad(q); bnSet.add(key(q)); })`. -/
def pullClosure (store : StoreT) (sub : StoreT) (ks : List String)
    (t : TermT) : StoreT × List String :=
  let qs := getQuads store (some t) none none none ++
    getQuads store none none (some t) none
  qs.foldl (fun acc q => (addQuad acc.1 q, addKey acc.2 (quadKey q))) (sub, ks)

/-- Loop state of `splitStore`: finished chunks, the seen-key set and the
running chunk. -/
structure SplitState where
  stores : List StoreT
  bnSet : List String
  sub : StoreT
  deriving DecidableEq

/-- One iteration of the `splitStore` loop body (lines 53-87). -/
def splitStep (store : StoreT) (threshold : Nat) (st : SplitState)
    (q : Quad) : SplitState :=
  if quadKey q ∈ st.bnSet then st
  else
    let flushed := threshold ≤ st.sub.length
    let stores1 := if flushed then st.stores ++ [st.sub] else st.stores
    let sub1 := if flushed then ([] : StoreT) else st.sub
    let p1 := if q.subject.isBlankNode then
        pullClosure store sub1 st.bnSet q.subject else (sub1, st.bnSet)
    let p2 := if q.object.isBlankNode then
        pullClosure store p1.1 p1.2 q.object else p1
    ⟨stores1, p2.2, addQuad p2.1 q⟩

/-- `splitStore(store, threshold)` from `src/Utils.ts`: split a store into
chunks of up to `threshold` quads, keeping blank-node neighbourhoods
together via the closure pull. -/
def splitStore (store : StoreT) (threshold : Nat) : List StoreT :=
  if store.length < threshold then [store]
  else
    let st := store.foldl (splitStep store threshold) ⟨[], [], []⟩
    st.stores ++ [st.sub]

/-! ## Literal sanitization (`sanitizeQuads`, `src/Utils.ts` lines 94-110) -/

/-- The XSD integer datatype IRI. -/
def xsdInteger : String := "http://www.w3.org/2001/XMLSchema#integer"

/-- The `/\+\d+/` regex test: some `+` immediately followed by a digit. -/
def hasPlusDigit : List Char → Bool
  | [] => false
  | '+' :: d :: rest => if d.isDigit then true else hasPlusDigit (d :: rest)
  | _ :: rest => hasPlusDigit rest

/-- `sanitizeQuads(store)`: rewrite integer literals whose lexical form
starts with `+` (and matches `/\+\d+/`) to drop the leading sign. -/
def sanitizeQuads (store : StoreT) : StoreT :=
  store.foldl (fun acc q =>
    match q.object with
    | .literal v dt =>
      if dt = xsdInteger ∧ hasPlusDigit v.toList ∧ v.startsWith "+" then
        addQuad (removeQuad acc q)
          ⟨q.subject, q.predicate, .literal (v.drop 1) xsdInteger, q.graph⟩
      else acc
    | _ => acc) store

/-! ## Vocabulary constants (`@treecg/types`) -/

/-- `RDF.terms.type`. -/
def rdfTypeT : TermT := .namedNode "http://www.w3.org/1999/02/22-rdf-syntax-ns#type"

/-- `SHACL.terms.property`. -/
def shPropertyT : TermT := .namedNode "http://www.w3.org/ns/shacl#property"

/-- `SHACL.terms.path`. -/
def shPathT : TermT := .namedNode "http://www.w3.org/ns/shacl#path"

/-- `SHACL.terms.NodeShape`. -/
def shNodeShapeT : TermT := .namedNode "http://www.w3.org/ns/shacl#NodeShape"

/-- `SHACL.terms.targetClass`. -/
def shTargetClassT : TermT := .namedNode "http://www.w3.org/ns/shacl#targetClass"

/-- `SDS.payload`. -/
def sdsPayloadT : TermT := .namedNode "https://w3id.org/sds#payload"

/-- `SDS.stream`. -/
def sdsStreamT : TermT := .namedNode "https://w3id.org/sds#stream"

/-! ## Query synthesis (`src/SPARQLQueries.ts`) -/

/-- Models the external N3 serializer's rendering of one term. -/
def termToNQ : TermT → String
  | .namedNode v => "<" ++ v ++ ">"
  | .blankNode v => "_:" ++ v
  | .literal v dt => "\"" ++ v ++ "\"^^<" ++ dt ++ ">"
  | .defaultGraph => ""

/-- Models the external N3 serializer's rendering of one quad. -/
def quadToNQ (q : Quad) : String :=
  termToNQ q.subject ++ " " ++ termToNQ q.predicate ++ " " ++ termToNQ q.object ++
  (if q.graph = TermT.defaultGraph then "" else " " ++ termToNQ q.graph) ++ " ."

/-- Models `new N3Writer().quadsToString(quads)` (external collaborator:
RDF serialization library; only the produced text block matters here). -/
def quadsToString (qs : StoreT) : String :=
  String.intercalate "\n" (qs.map quadToNQ)

/-- The `${namedGraph ? `WITH <${namedGraph}>` : ""}` template fragment. -/
def withClause (ng : Option String) : String :=
  match ng with
  | some g => "WITH <" ++ g ++ ">"
  | none => ""

/-- One mapped `INSERT DATA` block of `CREATE`/`UPDATE` (the inner template
literal of the `stores.map` call), with `sep` the trailing `";"` or `""`. -/
def insertDataChunk (ng : Option String) (chunk : StoreT) (sep : String) : String :=
  "\n                " ++ withClause ng ++
  "\n                INSERT DATA \x7b \n                    " ++
  quadsToString chunk ++ " \n                \x7d\n                " ++ sep ++
  "\n            "

/-- `stores.map((subStore, i) => ...).join("\n")`: the joined `INSERT DATA`
statements over the split chunks. -/
def insertStatements (chunks : List StoreT) (ng : Option String) : String :=
  String.intercalate "\n" (chunks.enum.map fun p =>
    insertDataChunk ng p.2 (if p.1 = chunks.length - 1 then "" else ";"))

/-- `CREATE(store, namedGraph)` from `src/SPARQLQueries.ts` lines 10-29. -/
def CREATE (store : StoreT) (namedGraph : Option String) : String :=
  let stores := splitStore store 500
  "\n        " ++ insertStatements stores namedGraph ++ "\n    "

/-- The wildcard pattern line for a named-node subject:
`<subj> ?p_i ?o_i.`. -/
def namedSubjectLine (v : String) (i : Nat) : String :=
  "<" ++ v ++ "> ?p_" ++ toString i ++ " ?o_" ++ toString i ++ "."

/-- The serialization of a quad object inside the blank-node wildcard line
(lines 115-119 of `src/SPARQLQueries.ts`). -/
def blankObjectText (o : TermT) (i : Nat) : String :=
  match o with
  | .literal v dt => "\"" ++ v ++ "\"^^<" ++ dt ++ ">"
  | .blankNode _ => "?bn_ref_" ++ toString i
  | t => "<" ++ t.value ++ ">"

/-- The three wildcard pattern lines for a blank-node subject. -/
def blankSubjectLines (q : Quad) (i : Nat) : List String :=
  ["?bn_" ++ toString i ++ " <" ++ q.predicate.value ++ "> " ++
      blankObjectText q.object i ++ ".",
   "?bn_" ++ toString i ++ " ?p_" ++ toString i ++ " ?o_" ++ toString i ++ ".",
   "?s_ref_" ++ toString i ++ " ?p_ref_" ++ toString i ++ " ?bn_" ++
      toString i ++ "."]

/-- The per-quad loop of `formatQuery`'s no-shape branch (lines 106-125):
each distinct subject value is processed once and consumes one variable
index. -/
def wildcardLoop : List Quad → List String → List String → Nat → List String
  | [], _seen, qb, _i => qb
  | q :: rest, seen, qb, i =>
    if q.subject.value ∈ seen then wildcardLoop rest seen qb i
    else
      let seen1 := seen ++ [q.subject.value]
      match q.subject with
      | .namedNode v => wildcardLoop rest seen1 (qb ++ [namedSubjectLine v i]) (i + 1)
      | .blankNode _ => wildcardLoop rest seen1 (qb ++ blankSubjectLines q i) (i + 1)
      | _ => wildcardLoop rest seen1 qb (i + 1)

/-- The no-shape (full wildcard) deletion pattern of `formatQuery`. -/
def wildcardPattern (store : StoreT) (indexStart : Nat) : String :=
  String.intercalate "\n" (wildcardLoop store [] [] indexStart)

/-- The first-unreferenced-node-shape search loop of
`extractMainTargetClass` (lines 194-205). -/
def findMainNodeShape (store : StoreT) :
    List TermT → Option TermT → Except String (Option TermT)
  | [], acc => .ok acc
  | ns :: rest, acc =>
    if (getSubjects store none (some ns)).length = 0 then
      match acc with
      | none => findMainNodeShape store rest (some ns)
      | some _ => .error ("There are multiple main node shapes in a given shape."
          ++ " Unrelated shapes must be given as separate member shapes")
    else findMainNodeShape store rest acc

/-- `extractMainTargetClass(store)` from `src/SPARQLQueries.ts` lines
189-219, on an already-parsed shape store. -/
def extractMainTargetClass (store : StoreT) : Except String TermT :=
  let nodeShapes := getSubjects store (some rdfTypeT) (some shNodeShapeT)
  if nodeShapes.length > 0 then
    match findMainNodeShape store nodeShapes none with
    | .error e => .error e
    | .ok (some mainNodeShape) =>
      match (getObjects store (some mainNodeShape) (some shTargetClassT)).head? with
      | some tcq => .ok tcq
      | none => .error "No target class found in main SHACL Node Shapes"
    | .ok none => .error "No main SHACL Node Shapes found in given member shape"
  else .error "No SHACL Node Shapes found in given member shape"

/-- JavaScript `Map.set` semantics on an insertion-ordered association
list: an existing key keeps its position and gets the new value. -/
def mapSet (m : List (String × StoreT)) (k : String) (v : StoreT) :
    List (String × StoreT) :=
  if m.any (fun p => p.1 = k) then
    m.map (fun p => if p.1 = k then (k, v) else p)
  else m ++ [(k, v)]

/-- JavaScript `Map.get` semantics. -/
def lookupIndex : List (String × StoreT) → String → Option StoreT
  | [], _ => none
  | (k, v) :: rest, key => if k = key then some v else lookupIndex rest key

/-- The shape-index construction of `formatQuery` (lines 129-134): each
parsed shape store is keyed by its main target class (the `n3` parsing of
the configured shape text is external; shapes are taken as stores). -/
def buildShapeIndex : List StoreT → List (String × StoreT) →
    Except String (List (String × StoreT))
  | [], acc => .ok acc
  | sh :: rest, acc =>
    match extractMainTargetClass sh with
    | .error e => .error e
    | .ok c => buildShapeIndex rest (mapSet acc c.value sh)

/-- The bare member wildcard line `<member> ?p_i ?o_i.`. -/
def memberLine (m : String) (i : Nat) : String :=
  "<" ++ m ++ "> ?p_" ++ toString i ++ " ?o_" ++ toString i ++ "."

/-- The per-property-shape loop of `formatQuery`'s shape branches (lines
149-154 and 166-173): produces the WHERE lines and DELETE lines (which
coincide per property) and threads the variable index; a property shape
without an `sh:path` value makes the JavaScript crash (`pred.value` on
`undefined`). -/
def shapePropsLoop (m : String) (mshStore : StoreT) :
    List TermT → Nat → Except String (List String × List String × Nat)
  | [], i => .ok ([], [], i)
  | propSh :: rest, i =>
    match (getObjects mshStore (some propSh) (some shPathT)).head? with
    | none => .error "TypeError"
    | some pred =>
      match shapePropsLoop m mshStore rest (i + 1) with
      | .error e => .error e
      | .ok (ws, ds, i2) =>
        let a := "<" ++ m ++ "> <" ++ pred.value ++ "> ?subEnt_" ++ toString i ++ "."
        let b := "?subEnt_" ++ toString i ++ " ?p_" ++ toString i ++ " ?o_" ++
          toString i ++ "."
        .ok (a :: b :: ws, a :: b :: ds, i2)

/-- The `shapeIndex.forEach` loop of `formatQuery`'s untyped branch (lines
163-175): wraps each shape's WHERE lines in an `OPTIONAL` block and
accumulates the unwrapped DELETE lines. -/
def shapeBlocksLoop (m : String) :
    List (String × StoreT) → Nat → Except String (List String × List String × Nat)
  | [], i => .ok ([], [], i)
  | (_, mshStore) :: rest, i =>
    match shapePropsLoop m mshStore
        (getObjects mshStore none (some shPropertyT)) i with
    | .error e => .error e
    | .ok (ws, ds, i1) =>
      match shapeBlocksLoop m rest i1 with
      | .error e => .error e
      | .ok (ws2, ds2, i2) =>
        .ok ((" OPTIONAL \x7b " :: ws) ++ [" \x7d"] ++ ws2, ds ++ ds2, i2)

/-- `formatQuery(memberStore, memberIRI, memberShapes, indexStart)` from
`src/SPARQLQueries.ts` lines 90-183. Returns the list of formatted
pattern strings (`[where]` or `[where, delete]`); JavaScript `throw`s and
`undefined` dereferences become `Except.error`. -/
def formatQuery (memberStore : StoreT) (memberIRI : Option String)
    (memberShapes : List StoreT) (indexStart : Nat) :
    Except String (List String) :=
  if memberShapes.isEmpty then
    .ok [wildcardPattern memberStore indexStart]
  else
    match buildShapeIndex memberShapes [] with
    | .error e => .error e
    | .ok shapeIndex =>
      let m := match memberIRI with
        | some s => s
        | none => "undefined"
      let memberType :=
        (getObjects memberStore (some (.namedNode m)) (some rdfTypeT)).head?
      match memberType with
      | some t =>
        match lookupIndex shapeIndex t.value with
        | none => .error "TypeError"
        | some mshStore =>
          match shapePropsLoop m mshStore
              (getObjects mshStore none (some shPropertyT)) (indexStart + 1) with
          | .error e => .error e
          | .ok (ws, _, _) =>
            .ok [String.intercalate "\n" (memberLine m indexStart :: ws)]
      | none =>
        match shapeBlocksLoop m shapeIndex (indexStart + 1) with
        | .error e => .error e
        | .ok (ws, ds, _) =>
          .ok [String.intercalate "\n" (memberLine m indexStart :: ws),
               String.intercalate "\n" (memberLine m indexStart :: ds)]

/-- `UPDATE(store, namedGraph)` from `src/SPARQLQueries.ts` lines 33-59:
a `DELETE`/`WHERE` pair over `formatQuery(store)[0]` followed by the
chunked `INSERT DATA` statements. -/
def UPDATE (store : StoreT) (namedGraph : Option String) : String :=
  let formattedQuery := match formatQuery store none [] 0 with
    | .ok l => l.getD 0 ""
    | .error _ => ""
  let stores := splitStore store 500
  "\n        " ++ withClause namedGraph ++
  "\n        DELETE \x7b \n            " ++ formattedQuery ++
  " \n        \x7d\n        WHERE \x7b \n            " ++ formattedQuery ++
  " \n        \x7d;\n        " ++ insertStatements stores namedGraph ++ "\n    "

/-- The per-member loop of `DELETE` (lines 69-78): member `k` in the list
is formatted with `indexStart = k`; the second formatted string (when
present) goes to the DELETE builder, the first to the WHERE builder. -/
def deleteFragments (store : StoreT) :
    List String → List StoreT → Nat → Except String (List String × List String)
  | [], _shapes, _indexStart => .ok ([], [])
  | memberIRI :: rest, memberShapes, indexStart =>
    match formatQuery store (some memberIRI) memberShapes indexStart with
    | .error e => .error e
    | .ok formatted =>
      match deleteFragments store rest memberShapes (indexStart + 1) with
      | .error e => .error e
      | .ok (db, wb) =>
        .ok ((if formatted.length > 1 then formatted.getD 1 ""
              else formatted.getD 0 "") :: db,
             formatted.getD 0 "" :: wb)

/-- `DELETE(store, memberIRIs, memberShapes, namedGraph)` from
`src/SPARQLQueries.ts` lines 61-88. -/
def DELETE (store : StoreT) (memberIRIs : List String)
    (memberShapes : List StoreT) (namedGraph : Option String) :
    Except String String :=
  match deleteFragments store memberIRIs memberShapes 0 with
  | .error e => .error e
  | .ok (db, wb) =>
    .ok ("\n        " ++ withClause namedGraph ++
      "\n        DELETE \x7b\n            " ++ String.intercalate "\n" db ++
      "\n        \x7d WHERE \x7b\n            " ++ String.intercalate "\n" wb ++
      "\n        \x7d\n    ")

/-! ## Ingest state machine (`src/SPARQLIngest.ts`) -/

/-- `ChangeSemantics` configuration. -/
structure ChangeSemantics where
  changeTypePath : String
  createValue : String
  updateValue : String
  deleteValue : String
  deriving DecidableEq

/-- `TransactionConfig` configuration. -/
structure TransactionConfig where
  transactionIdPath : String
  transactionEndPath : String
  deriving DecidableEq

/-- `IngestConfig` (the query-relevant part: the HTTP endpoint fields are
external I/O). The configured shape documents are taken already parsed
(`memberShapes = []` models an absent or empty `memberShapes`). -/
structure IngestConfig where
  memberIsGraph : Bool
  memberShapes : List StoreT
  changeSemantics : Option ChangeSemantics
  targetNamedGraph : Option String
  transactionConfig : Option TransactionConfig
  deriving DecidableEq

/-- `TransactionMember`: one buffered transaction member. -/
structure TransactionMember where
  memberId : String
  transactionId : String
  store : StoreT
  deriving DecidableEq

/-- `verifyTransaction(stores, transactionIdPath, transactionId)` from
`src/SPARQLIngest.ts` lines 178-189: error on the first object of the
transaction-id predicate in a buffered store that differs from the
incoming transaction id. -/
def verifyTransaction (stores : List StoreT) (transactionIdPath : String)
    (transactionId : TermT) : Except String Unit :=
  match stores with
  | [] => .ok ()
  | st :: rest =>
    match (getObjects st none (some (.namedNode transactionIdPath))).find?
        (fun tid => !decide (tid = transactionId)) with
    | some tid => .error ("[sparqlIngest] Received non-matching transaction ID "
        ++ transactionId.value ++ " with previous transaction: " ++ tid.value)
    | none => verifyTransaction rest transactionIdPath transactionId

/-- `getNamedGraphIfAny(memberIRI, memberIsGraph, targetNamedGraph)` from
`src/SPARQLIngest.ts` lines 191-203 (`targetNamedGraph` is tested for
JavaScript truthiness, so an empty string behaves like `undefined`). -/
def getNamedGraphIfAny (memberIRI : TermT) (memberIsGraph : Bool)
    (targetNamedGraph : Option String) : Option String :=
  if memberIsGraph then some memberIRI.value
  else
    match targetNamedGraph with
    | some g => if g = "" then none else some g
    | none => none

/-- The change-kind dispatch loop of `createTransactionQueries` (lines
220-235): classify every buffered member's quads into the create, update
and delete stores (removing each member's change-type quad), collecting
the delete members' ids. A member without a change-type quad crashes the
JavaScript (`ctv.object` on `undefined`); an unrecognized change-type
value throws. -/
def transactionClassify (cs : ChangeSemantics) :
    List TransactionMember → StoreT → StoreT → StoreT → List String →
    Except String (StoreT × StoreT × StoreT × List String)
  | [], createStore, updateStore, deleteStore, deleteMembers =>
    .ok (createStore, updateStore, deleteStore, deleteMembers)
  | tsm :: rest, createStore, updateStore, deleteStore, deleteMembers =>
    match (getQuads tsm.store none (some (.namedNode cs.changeTypePath))
        none none).head? with
    | none => .error "TypeError"
    | some ctv =>
      let st := removeQuad tsm.store ctv
      if ctv.object.value = cs.createValue then
        transactionClassify cs rest (addQuads createStore st) updateStore
          deleteStore deleteMembers
      else if ctv.object.value = cs.updateValue then
        transactionClassify cs rest createStore (addQuads updateStore st)
          deleteStore deleteMembers
      else if ctv.object.value = cs.deleteValue then
        transactionClassify cs rest createStore updateStore
          (addQuads deleteStore st) (deleteMembers ++ [tsm.memberId])
      else
        .error ("[sparqlIngest] Unrecognized change type value: " ++
          ctv.object.value)

/-- `createTransactionQueries(transactionMembers, config)` from
`src/SPARQLIngest.ts` lines 205-256. Note the source guards the `DELETE`
push with `updateStore.size > 0` (line 246). -/
def createTransactionQueries (transactionMembers : List TransactionMember)
    (config : IngestConfig) : Except String String :=
  match config.changeSemantics with
  | none => .error "TypeError"
  | some cs =>
    match transactionClassify cs transactionMembers [] [] [] [] with
    | .error e => .error e
    | .ok (createStore, updateStore, deleteStore, deleteMembers) =>
      let b0 : List String := []
      let b1 := if createStore.length > 0 then
          b0 ++ [CREATE createStore config.targetNamedGraph] else b0
      let b2 := if updateStore.length > 0 then
          b1 ++ [UPDATE updateStore config.targetNamedGraph] else b1
      if updateStore.length > 0 then
        match DELETE deleteStore deleteMembers config.memberShapes
            config.targetNamedGraph with
        | .error e => .error e
        | .ok d => .ok (String.intercalate ";\n" (b2 ++ [d]))
      else .ok (String.intercalate ";\n" b2)

/-- The query-building tail of the record handler (`src/SPARQLIngest.ts`
lines 111-153), entered after SDS unwrapping and transaction buffering.
Returns the updated transaction buffer and the query pushed to the
output (`none` when the built query is JavaScript-falsy, i.e. empty, per
the `if (query)` guard on line 156). -/
def buildQuery (config : IngestConfig) (transactionMembers : List TransactionMember)
    (store : StoreT) (memberIRI : TermT) :
    Except String (List TransactionMember × Option String) :=
  match config.changeSemantics with
  | some cs =>
    if transactionMembers.length > 0 then
      match createTransactionQueries transactionMembers config with
      | .error e => .error e
      | .ok query => .ok ([], if query = "" then none else some query)
    else
      let ng := getNamedGraphIfAny memberIRI config.memberIsGraph
        config.targetNamedGraph
      match (getQuads store none (some (.namedNode cs.changeTypePath))
          none none).head? with
      | none => .error "TypeError"
      | some ctv =>
        let store1 := sanitizeQuads (removeQuad store ctv)
        if ctv.object.value = cs.createValue then
          .ok (transactionMembers,
            let q := CREATE store1 ng; if q = "" then none else some q)
        else if ctv.object.value = cs.updateValue then
          .ok (transactionMembers,
            let q := UPDATE store1 ng; if q = "" then none else some q)
        else if ctv.object.value = cs.deleteValue then
          match DELETE store1 [memberIRI.value] config.memberShapes ng with
          | .error e => .error e
          | .ok q => .ok (transactionMembers, if q = "" then none else some q)
        else
          .error ("[sparqlIngest] Unrecognized change type value: " ++
            ctv.object.value)
  | none =>
    if transactionMembers.length > 0 then
      let store1 := transactionMembers.foldl
        (fun acc ts => addQuads acc ts.store) store
      let q := UPDATE store1 config.targetNamedGraph
      .ok (transactionMembers, if q = "" then none else some q)
    else
      let ng := getNamedGraphIfAny memberIRI config.memberIsGraph
        config.targetNamedGraph
      let q := UPDATE store ng
      .ok (transactionMembers, if q = "" then none else some q)

/-- One step of the `memberStream.data` handler of `sparqlIngest`
(`src/SPARQLIngest.ts` lines 44-170), on an already-parsed record:
extract the member IRI from the SDS payload triple (error when absent),
strip the SDS wrapper, handle transaction buffering, and otherwise build
the query. Returns the new transaction buffer and the emitted query, if
any. -/
def processRecord (config : IngestConfig)
    (transactionMembers : List TransactionMember) (quads : List Quad) :
    Except String (List TransactionMember × Option String) :=
  let store0 := mkStore quads
  match (getObjects store0 none (some sdsPayloadT)).head? with
  | none => .error "[sparqlIngest] No member IRI found in received RDF data"
  | some memberIRI =>
    let store1 := removeQuads store0 (getQuads store0 none (some sdsStreamT) none none)
    let store2 := removeQuads store1 (getQuads store1 none (some sdsPayloadT) none none)
    match config.transactionConfig with
    | some tc =>
      match (getObjects store2 none (some (.namedNode tc.transactionIdPath))).head? with
      | some transactionId =>
        let store3 := removeQuad store2
          (triple memberIRI (.namedNode tc.transactionIdPath) transactionId)
        match (getObjects store3 none (some (.namedNode tc.transactionEndPath))).head? with
        | some isLastOfTransaction =>
          match verifyTransaction (transactionMembers.map (·.store))
              tc.transactionIdPath transactionId with
          | .error e => .error e
          | .ok _ =>
            let store4 := removeQuad store3
              (triple memberIRI (.namedNode tc.transactionEndPath) isLastOfTransaction)
            let tm1 := transactionMembers ++
              [⟨memberIRI.value, transactionId.value, store4⟩]
            buildQuery config tm1 store4 memberIRI
        | none =>
          if transactionMembers.length > 0 then
            match verifyTransaction (transactionMembers.map (·.store))
                tc.transactionIdPath transactionId with
            | .error e => .error e
            | .ok _ => .ok (transactionMembers ++
                [⟨memberIRI.value, transactionId.value, store3⟩], none)
          else
            if transactionMembers.length > 0 then
              .error ("[sparqlIngest] Received new transaction " ++
                transactionId.value ++ ", but older transaction hasn't been finalized ")
            else
              .ok (transactionMembers ++
                [⟨memberIRI.value, transactionId.value, store3⟩], none)
      | none => buildQuery config transactionMembers store2 memberIRI
    | none => buildQuery config transactionMembers store2 memberIRI

/-! ## Helpers for stating properties of the generated query text -/

/-- `listStarts pat s`: `pat` is an initial segment of `s`. -/
def listStarts : List Char → List Char → Bool
  | [], _ => true
  | _ :: _, [] => false
  | p :: ps, c :: cs => decide (p = c) && listStarts ps cs

/-- `containsSub pat s`: `pat` occurs contiguously inside `s`. -/
def containsSub (pat : List Char) : List Char → Bool
  | [] => pat.isEmpty
  | c :: rest => listStarts pat (c :: rest) || containsSub pat rest

/-! ## Concrete inputs used by the claim theorems -/

/-- Example change-semantics configuration (as in the repository tests). -/
def exCS : ChangeSemantics :=
  ⟨"https://example.org/ns#changeType", "https://example.org/ns#Create",
   "https://example.org/ns#Update", "https://example.org/ns#Delete"⟩

/-- Example transaction configuration (as in the repository tests). -/
def exTC : TransactionConfig :=
  ⟨"https://w3id.org/ldes#transactionId", "https://w3id.org/ldes#isLastOfTransaction"⟩

/-- Ingest configuration with change semantics and no transaction. -/
def exCfg : IngestConfig := ⟨false, [], some exCS, none, none⟩

/-- Ingest configuration with change semantics and transactions. -/
def exCfgTx : IngestConfig := ⟨false, [], some exCS, none, some exTC⟩

/-- Ingest configuration with neither change semantics nor transactions. -/
def exCfgPlain : IngestConfig := ⟨false, [], none, none, none⟩

/-- A delete-tagged transaction member. -/
def exDelMember : TransactionMember :=
  ⟨"https://example.org/entity/M1", "T1",
   [triple (.namedNode "https://example.org/entity/M1")
      (.namedNode "https://example.org/ns#changeType")
      (.namedNode "https://example.org/ns#Delete"),
    triple (.namedNode "https://example.org/entity/M1")
      (.namedNode "https://example.org/ns#prop1")
      (.literal "v1" "http://www.w3.org/2001/XMLSchema#string")]⟩

/-- A create-tagged transaction member. -/
def exCreateMember : TransactionMember :=
  ⟨"https://example.org/entity/M2", "T1",
   [triple (.namedNode "https://example.org/entity/M2")
      (.namedNode "https://example.org/ns#changeType")
      (.namedNode "https://example.org/ns#Create"),
    triple (.namedNode "https://example.org/entity/M2")
      (.namedNode "https://example.org/ns#prop1")
      (.literal "v2" "http://www.w3.org/2001/XMLSchema#string")]⟩

/-- The create member body after its change-type quad is removed. -/
def exCreateBody : StoreT :=
  [triple (.namedNode "https://example.org/entity/M2")
     (.namedNode "https://example.org/ns#prop1")
     (.literal "v2" "http://www.w3.org/2001/XMLSchema#string")]

/-- C1: contrary to the claim, a closed transaction whose buffered members
include delete-tagged members yields no `DELETE` operation unless an
update-tagged member is also present (the `DELETE` push in
`createTransactionQueries` is guarded by `updateStore.size > 0`): a
transaction of a single delete-tagged member folds to the empty query,
and a create-plus-delete transaction folds to the `INSERT DATA` query of
the create member alone, whose text contains no `DELETE` operation at
all. -/
theorem c1_transaction_delete_dropped :
    createTransactionQueries [exDelMember] exCfg = .ok "" ∧
    createTransactionQueries [exCreateMember, exDelMember] exCfg =
      .ok (CREATE exCreateBody none) ∧
    containsSub "DELETE".toList (CREATE exCreateBody none).toList = false := by
  refine ⟨rfl, rfl, by decide⟩

/-- A two-subject store fed to the transaction-delete fold. -/
def exTwoSubjectStore : StoreT :=
  [triple (.namedNode "http://ex/s1") (.namedNode "http://ex/p")
     (.namedNode "http://ex/o1"),
   triple (.namedNode "http://ex/s2") (.namedNode "http://ex/p")
     (.namedNode "http://ex/o2")]

/-- C2: contrary to the claim, the per-member variable-index offset of
`DELETE` (`indexStart` incremented by one per member) does not make the
numbered variables of different members distinct: over a two-subject
store, the fragment of the first member (offset 0) and the fragment of
the second member (offset 1) both contain the variables `?p_1 ?o_1`. -/
theorem c2_delete_fold_variable_collision :
    deleteFragments exTwoSubjectStore ["http://ex/s1", "http://ex/s2"] [] 0 =
      .ok (["<http://ex/s1> ?p_0 ?o_0.\n<http://ex/s2> ?p_1 ?o_1.",
            "<http://ex/s1> ?p_1 ?o_1.\n<http://ex/s2> ?p_2 ?o_2."],
           ["<http://ex/s1> ?p_0 ?o_0.\n<http://ex/s2> ?p_1 ?o_1.",
            "<http://ex/s1> ?p_1 ?o_1.\n<http://ex/s2> ?p_2 ?o_2."]) ∧
    containsSub "?p_1 ?o_1.".toList
      "<http://ex/s1> ?p_0 ?o_0.\n<http://ex/s2> ?p_1 ?o_1.".toList = true ∧
    containsSub "?p_1 ?o_1.".toList
      "<http://ex/s1> ?p_1 ?o_1.\n<http://ex/s2> ?p_2 ?o_2.".toList = true := by
  refine ⟨rfl, by decide, by decide⟩

/-- A quad whose object is the blank node `b2`. -/
def exQ0 : Quad := triple (.namedNode "urn:a") (.namedNode "urn:p") (.blankNode "b2")

/-- A quad linking the blank nodes `b2` and `b3`. -/
def exQ1 : Quad := triple (.blankNode "b2") (.namedNode "urn:p") (.blankNode "b3")

/-- A quad with no blank nodes. -/
def exQ2 : Quad := triple (.namedNode "urn:c") (.namedNode "urn:p") (.namedNode "urn:d")

/-- A quad whose object is the blank node `b3`. -/
def exQ3 : Quad := triple (.namedNode "urn:e") (.namedNode "urn:p") (.blankNode "b3")

/-- C3: contrary to the claim, `splitStore` can emit one quad into two
different chunks: the closure pull adds quads without consulting the
seen set first, so the quad `b2 -p-> b3`, shared between the closures of
`b2` (pulled into the first chunk) and `b3` (pulled into the second),
is emitted into both chunks. -/
theorem c3_split_duplicates_quad :
    splitStore [exQ0, exQ1, exQ2, exQ3] 2 =
      [[exQ1, exQ0], [exQ2, exQ1, exQ3]] ∧
    exQ1 ∈ [exQ1, exQ0] ∧ exQ1 ∈ [exQ2, exQ1, exQ3] := by
  refine ⟨by decide, by decide, by decide⟩

/-- A two-quad blank-node closure. -/
def exBnPair : StoreT :=
  [triple (.blankNode "b2") (.namedNode "urn:p") (.namedNode "urn:o1"),
   triple (.blankNode "b2") (.namedNode "urn:p") (.namedNode "urn:o2")]

/-- C4 counterexample: with threshold 1, the two-quad closure of a blank
node is placed in a single chunk of 2 quads, exceeding the threshold. -/
theorem c4_chunk_exceeds_threshold :
    ¬ (∀ c ∈ splitStore exBnPair 1, c.length ≤ 1) := by
  decide

/-- First record of transaction `TA1` (member A1, no end marker). -/
def exRecA1 : List Quad :=
  [triple (.blankNode "w") sdsPayloadT (.namedNode "http://ex/tx/A1"),
   triple (.namedNode "http://ex/tx/A1")
     (.namedNode "https://w3id.org/ldes#transactionId")
     (.literal "TA1" "http://www.w3.org/2001/XMLSchema#string"),
   triple (.namedNode "http://ex/tx/A1") (.namedNode "https://example.org/ns#changeType")
     (.namedNode "https://example.org/ns#Create"),
   triple (.namedNode "http://ex/tx/A1") (.namedNode "http://ex/p")
     (.namedNode "http://ex/o1")]

/-- Record of member A2 carrying the differing transaction id `TA2`
(no end marker). -/
def exRecA2 : List Quad :=
  [triple (.blankNode "w") sdsPayloadT (.namedNode "http://ex/tx/A2"),
   triple (.namedNode "http://ex/tx/A2")
     (.namedNode "https://w3id.org/ldes#transactionId")
     (.literal "TA2" "http://www.w3.org/2001/XMLSchema#string"),
   triple (.namedNode "http://ex/tx/A2") (.namedNode "https://example.org/ns#changeType")
     (.namedNode "https://example.org/ns#Create"),
   triple (.namedNode "http://ex/tx/A2") (.namedNode "http://ex/p")
     (.namedNode "http://ex/o2")]

/-- The buffer after record A1 is processed (its transaction-id triple has
been removed from the buffered store). -/
def exTmA1 : List TransactionMember :=
  [⟨"http://ex/tx/A1", "TA1",
    [triple (.namedNode "http://ex/tx/A1") (.namedNode "https://example.org/ns#changeType")
       (.namedNode "https://example.org/ns#Create"),
     triple (.namedNode "http://ex/tx/A1") (.namedNode "http://ex/p")
       (.namedNode "http://ex/o1")]⟩]

/-- The member buffered from record A2. -/
def exMemA2 : TransactionMember :=
  ⟨"http://ex/tx/A2", "TA2",
   [triple (.namedNode "http://ex/tx/A2") (.namedNode "https://example.org/ns#changeType")
      (.namedNode "https://example.org/ns#Create"),
    triple (.namedNode "http://ex/tx/A2") (.namedNode "http://ex/p")
      (.namedNode "http://ex/o2")]⟩

/-- C5: contrary to the claim, a member whose transaction id (`TA2`)
differs from the one carried by the buffered members (`TA1`) raises no
error and is silently merged into the open transaction: because the
handler removes the transaction-id triple from each store before
buffering it, `verifyTransaction` finds no transaction-id objects in the
buffered stores and succeeds vacuously. -/
theorem c5_transaction_mismatch_merged :
    processRecord exCfgTx [] exRecA1 = .ok (exTmA1, none) ∧
    processRecord exCfgTx exTmA1 exRecA2 = .ok (exTmA1 ++ [exMemA2], none) := by
  exact ⟨rfl, rfl⟩

/-- First record of transaction `TB1` (member B1, no end marker). -/
def exRecB1 : List Quad :=
  [triple (.blankNode "w") sdsPayloadT (.namedNode "http://ex/tx/B1"),
   triple (.namedNode "http://ex/tx/B1")
     (.namedNode "https://w3id.org/ldes#transactionId")
     (.literal "TB1" "http://www.w3.org/2001/XMLSchema#string"),
   triple (.namedNode "http://ex/tx/B1") (.namedNode "http://ex/q")
     (.namedNode "http://ex/u1")]

/-- First record of the new transaction `TB2`, arriving while `TB1` is
still unfinished. -/
def exRecB2 : List Quad :=
  [triple (.blankNode "w") sdsPayloadT (.namedNode "http://ex/tx/B2"),
   triple (.namedNode "http://ex/tx/B2")
     (.namedNode "https://w3id.org/ldes#transactionId")
     (.literal "TB2" "http://www.w3.org/2001/XMLSchema#string"),
   triple (.namedNode "http://ex/tx/B2") (.namedNode "http://ex/q")
     (.namedNode "http://ex/u2")]

/-- The buffer after record B1 is processed. -/
def exTmB1 : List TransactionMember :=
  [⟨"http://ex/tx/B1", "TB1",
    [triple (.namedNode "http://ex/tx/B1") (.namedNode "http://ex/q")
       (.namedNode "http://ex/u1")]⟩]

/-- The member buffered from record B2. -/
def exMemB2 : TransactionMember :=
  ⟨"http://ex/tx/B2", "TB2",
   [triple (.namedNode "http://ex/tx/B2") (.namedNode "http://ex/q")
      (.namedNode "http://ex/u2")]⟩

/-- C7: contrary to the claim, a record starting a new transaction
(`TB2`) while a prior transaction (`TB1`) is unfinished raises no error:
a non-empty buffer routes the record into the ongoing-transaction branch
(whose verification is vacuous, the buffered id triples having been
removed), so the guard that throws for an unfinalized older transaction
sits in the empty-buffer branch and is unreachable; the record is
buffered alongside the old transaction. -/
theorem c7_new_transaction_not_fatal :
    processRecord exCfgTx [] exRecB1 = .ok (exTmB1, none) ∧
    processRecord exCfgTx exTmB1 exRecB2 = .ok (exTmB1 ++ [exMemB2], none) := by
  exact ⟨rfl, rfl⟩

/-- A record with no SDS payload triple. -/
def exNonSDSRecord : List Quad :=
  [triple (.namedNode "urn:a") (.namedNode "urn:p") (.namedNode "urn:c")]

/-- C9 counterexample: a record containing no SDS payload triple is not
processed as non-SDS content; the handler raises the no-member-IRI
error. -/
theorem c9_no_payload_rejected :
    processRecord exCfgPlain [] exNonSDSRecord =
      .error "[sparqlIngest] No member IRI found in received RDF data" := by
  exact rfl

/-- C9 amended: every incoming record containing no SDS payload triple is
rejected with the fatal no-member-IRI error (it is not treated as
non-SDS content and no query is synthesized for it). -/
theorem c9_no_payload_error (config : IngestConfig)
    (transactionMembers : List TransactionMember) (quads : List Quad)
    (h : getQuads (mkStore quads) none (some sdsPayloadT) none none = []) :
    processRecord config transactionMembers quads =
      .error "[sparqlIngest] No member IRI found in received RDF data" := by
  simp [processRecord, getObjects, h]

/-- C9 witness: the amended theorem applied to a concrete payload-free
record. -/
theorem c9_no_payload_error_witness :
    getQuads (mkStore exNonSDSRecord) none (some sdsPayloadT) none none = [] ∧
    processRecord exCfgPlain [] exNonSDSRecord =
      .error "[sparqlIngest] No member IRI found in received RDF data" :=
  ⟨by decide, c9_no_payload_error exCfgPlain [] exNonSDSRecord (by decide)⟩

/-- C10: named-graph resolution is deterministic and gives the
member-is-graph flag absolute precedence: with `memberIsGraph` true the
member IRI is the target graph whatever else is configured; with it
false the configured (truthy) target named graph is used when present
and no graph otherwise. -/
theorem c10_named_graph_resolution :
    ∀ (memberIRI : TermT) (g : Option String),
      getNamedGraphIfAny memberIRI true g = some memberIRI.value ∧
      getNamedGraphIfAny memberIRI false none = none ∧
      (∀ s : String, s ≠ "" → getNamedGraphIfAny memberIRI false (some s) = some s) := by
  intro m g
  refine ⟨rfl, rfl, fun s hs => ?_⟩
  simp [getNamedGraphIfAny, hs]

/-- C10 witness: the resolution theorem applied at concrete inputs. -/
theorem c10_named_graph_resolution_witness :
    getNamedGraphIfAny (.namedNode "http://ex/m") true (some "http://ex/g") =
      some "http://ex/m" ∧
    getNamedGraphIfAny (.namedNode "http://ex/m") false none = none ∧
    ("http://ex/g" ≠ "" ∧
      getNamedGraphIfAny (.namedNode "http://ex/m") false (some "http://ex/g") =
        some "http://ex/g") :=
  ⟨(c10_named_graph_resolution (.namedNode "http://ex/m") (some "http://ex/g")).1,
   (c10_named_graph_resolution (.namedNode "http://ex/m") (some "http://ex/g")).2.1,
   by decide,
   (c10_named_graph_resolution (.namedNode "http://ex/m") (some "http://ex/g")).2.2
     "http://ex/g" (by decide)⟩

/-! ## Chunk-size bound of the splitter on blank-node-free stores -/

/-- Adding a quad grows a store by at most one. -/
lemma addQuad_length_le (s : StoreT) (q : Quad) :
    (addQuad s q).length ≤ s.length + 1 := by
  unfold addQuad
  split
  · omega
  · simp

/-- On a quad with no blank subject or object, one splitter step keeps
every finished chunk and the running chunk within the threshold. -/
lemma splitStep_bounded (store : StoreT) (threshold : Nat)
    (hthr : 0 < threshold) (st : SplitState) (q : Quad)
    (hqs : q.subject.isBlankNode = false) (hqo : q.object.isBlankNode = false)
    (h1 : ∀ c ∈ st.stores, c.length ≤ threshold)
    (h2 : st.sub.length ≤ threshold) :
    (∀ c ∈ (splitStep store threshold st q).stores, c.length ≤ threshold) ∧
    (splitStep store threshold st q).sub.length ≤ threshold := by
  unfold splitStep
  split
  · exact ⟨h1, h2⟩
  · simp only [hqs, hqo, Bool.false_eq_true, if_false]
    by_cases hf : threshold ≤ st.sub.length
    · simp only [hf, if_true]
      refine ⟨fun c hc => ?_, ?_⟩
      · rcases List.mem_append.mp hc with h | h
        · exact h1 c h
        · rcases List.mem_singleton.mp h with rfl
          exact h2
      · exact le_trans (addQuad_length_le [] q) (by simpa using hthr)
    · simp only [hf, if_false]
      exact ⟨h1, le_trans (addQuad_length_le st.sub q) (by omega)⟩

/-- The splitter loop preserves the chunk-size bound over a list of
blank-node-free quads. -/
lemma splitFold_bounded (store : StoreT) (threshold : Nat)
    (hthr : 0 < threshold) :
    ∀ (l : List Quad),
      (∀ q ∈ l, q.subject.isBlankNode = false ∧ q.object.isBlankNode = false) →
      ∀ st : SplitState,
        (∀ c ∈ st.stores, c.length ≤ threshold) → st.sub.length ≤ threshold →
        (∀ c ∈ (l.foldl (splitStep store threshold) st).stores,
            c.length ≤ threshold) ∧
        (l.foldl (splitStep store threshold) st).sub.length ≤ threshold := by
  intro l
  induction l with
  | nil => intro _ st h1 h2; exact ⟨h1, h2⟩
  | cons q rest ih =>
    intro hl st h1 h2
    have hq := hl q (List.mem_cons_self q rest)
    have hstep := splitStep_bounded store threshold hthr st q hq.1 hq.2 h1 h2
    simpa using ih (fun r hr => hl r (List.mem_cons_of_mem q hr))
      (splitStep store threshold st q) hstep.1 hstep.2

/-- C4 amended: for every store and positive threshold, every chunk
returned by `splitStore` contains at most `threshold` quads, provided no
quad of the store has a blank-node subject or object (blank-node closure
pulls are the only way a chunk may exceed the threshold, as the
counterexample shows). -/
theorem c4_split_chunks_bounded (store : StoreT) (threshold : Nat)
    (hthr : 0 < threshold)
    (hnb : ∀ q ∈ store, q.subject.isBlankNode = false ∧
      q.object.isBlankNode = false) :
    ∀ c ∈ splitStore store threshold, c.length ≤ threshold := by
  intro c hc
  unfold splitStore at hc
  split at hc
  · next hlen =>
    rcases List.mem_singleton.mp hc with rfl
    omega
  · next hlen =>
    have hb := splitFold_bounded store threshold hthr store hnb
      ⟨[], [], []⟩ (by intro c hc; simp at hc) (by simp)
    simp only [List.mem_append, List.mem_singleton] at hc
    rcases hc with h | rfl
    · exact hb.1 c h
    · exact hb.2

/-- A blank-node-free three-quad store. -/
def exNamedStore : StoreT :=
  [triple (.namedNode "urn:s1") (.namedNode "urn:p") (.namedNode "urn:o1"),
   triple (.namedNode "urn:s2") (.namedNode "urn:p") (.namedNode "urn:o2"),
   triple (.namedNode "urn:s3") (.namedNode "urn:p") (.namedNode "urn:o3")]

/-- C4 witness: the amended bound applied to a concrete blank-node-free
store with threshold 2. -/
theorem c4_split_chunks_bounded_witness :
    (0 < 2 ∧ (∀ q ∈ exNamedStore, q.subject.isBlankNode = false ∧
      q.object.isBlankNode = false)) ∧
    ∀ c ∈ splitStore exNamedStore 2, c.length ≤ 2 :=
  ⟨⟨by decide, by decide⟩,
   c4_split_chunks_bounded exNamedStore 2 (by decide) (by decide)⟩

/-! ## Structure of the Update synthesis -/

/-- Spec-side statement shape for the Update synthesis: a single
`DELETE`/`WHERE` statement whose deletion template and match pattern are
the one pattern `pat` (used twice), prefixed with a `WITH` clause when a
named graph applies and terminated by the statement separator. -/
def specDeleteWhereStatement (ng : Option String) (pat : String) : String :=
  "\n        " ++ withClause ng ++ "\n        DELETE \x7b \n            " ++ pat ++
  " \n        \x7d\n        WHERE \x7b \n            " ++ pat ++
  " \n        \x7d;\n        "

/-- C8: for every store, the Update synthesis emits one
`DELETE { D } WHERE { D }` statement (with a `WITH` prefix when a named
graph applies) whose deletion template and match pattern are the same
wildcard pattern `D` computed over the subjects of the store, followed
by the chunked `INSERT DATA` statements (one or more chunks), the
`DELETE` statement preceding all of them in the emitted text. -/
theorem c8_update_structure (store : StoreT) (ng : Option String) :
    UPDATE store ng =
      specDeleteWhereStatement ng (wildcardPattern store 0) ++
        (insertStatements (splitStore store 500) ng ++ "\n    ") ∧
    0 < (splitStore store 500).length := by
  constructor
  · simp [UPDATE, formatQuery, specDeleteWhereStatement, String.append_assoc]
  · unfold splitStore
    split <;> simp

/-! ## Structure of the Delete synthesis with shapes and no type -/

/-- The main target classes of a list of configured shape documents, in
configuration order (the per-shape extraction the shape index performs,
without the index). -/
def shapeClasses : List StoreT → Except String (List TermT)
  | [] => .ok []
  | sh :: rest =>
    match extractMainTargetClass sh with
    | .error e => .error e
    | .ok c =>
      match shapeClasses rest with
      | .error e => .error e
      | .ok cs => .ok (c :: cs)

/-- Spec-side pattern lines for the declared property paths of one shape:
for each property shape, `<member> <path> ?subEnt_i.` and
`?subEnt_i ?p_i ?o_i.`, with `i` incremented per property. -/
def specPropLines (m : String) (sh : StoreT) : List TermT → Nat → List String
  | [], _ => []
  | p :: rest, i =>
    let pred := (getObjects sh (some p) (some shPathT)).headD TermT.defaultGraph
    ("<" ++ m ++ "> <" ++ pred.value ++ "> ?subEnt_" ++ toString i ++ ".") ::
    ("?subEnt_" ++ toString i ++ " ?p_" ++ toString i ++ " ?o_" ++
      toString i ++ ".") ::
    specPropLines m sh rest (i + 1)

/-- Spec-side WHERE blocks: one `OPTIONAL` block per configured shape, in
configuration order, covering the declared property paths of that shape. -/
def specWhereBlocks (m : String) : List StoreT → Nat → List String
  | [], _ => []
  | sh :: rest, i =>
    (" OPTIONAL \x7b " ::
      specPropLines m sh (getObjects sh none (some shPropertyT)) i) ++
    [" \x7d"] ++
    specWhereBlocks m rest (i + (getObjects sh none (some shPropertyT)).length)

/-- Spec-side DELETE lines: the same per-shape triple patterns repeated
without `OPTIONAL`. -/
def specDeleteBlocks (m : String) : List StoreT → Nat → List String
  | [], _ => []
  | sh :: rest, i =>
    specPropLines m sh (getObjects sh none (some shPropertyT)) i ++
    specDeleteBlocks m rest (i + (getObjects sh none (some shPropertyT)).length)

/-- Successful class extraction yields one class per configured shape. -/
lemma shapeClasses_length :
    ∀ (shapes : List StoreT) (cs : List TermT),
      shapeClasses shapes = .ok cs → cs.length = shapes.length := by
  intro shapes
  induction shapes with
  | nil =>
    intro cs h
    simp only [shapeClasses] at h
    cases h
    rfl
  | cons sh rest ih =>
    intro cs h
    simp only [shapeClasses] at h
    cases hex : extractMainTargetClass sh with
    | error e => rw [hex] at h; cases h
    | ok c =>
      rw [hex] at h
      cases hrest : shapeClasses rest with
      | error e => rw [hrest] at h; cases h
      | ok cs' =>
        rw [hrest] at h
        cases h
        simp [ih cs' hrest]

/-- Setting an absent key appends the binding. -/
lemma mapSet_append (mm : List (String × StoreT)) (k : String) (v : StoreT)
    (h : k ∉ mm.map Prod.fst) : mapSet mm k v = mm ++ [(k, v)] := by
  have hany : mm.any (fun p => decide (p.1 = k)) = false := by
    simp only [List.any_eq_false, decide_eq_false_iff_not]
    intro p hp hpk
    exact h (List.mem_map.mpr ⟨p, hp, of_decide_eq_true hpk⟩)
  simp [mapSet, hany]

/-- With pairwise-distinct main target classes, the shape index lists the
configured shapes keyed by their class values, in configuration order. -/
lemma buildShapeIndex_ok :
    ∀ (shapes : List StoreT) (cs : List TermT) (acc : List (String × StoreT)),
      shapeClasses shapes = .ok cs →
      (acc.map Prod.fst ++ cs.map TermT.value).Nodup →
      buildShapeIndex shapes acc = .ok (acc ++ (cs.map TermT.value).zip shapes) := by
  intro shapes
  induction shapes with
  | nil =>
    intro cs acc h _
    simp only [shapeClasses] at h
    cases h
    simp [buildShapeIndex]
  | cons sh rest ih =>
    intro cs acc h hn
    simp only [shapeClasses] at h
    cases hex : extractMainTargetClass sh with
    | error e => rw [hex] at h; cases h
    | ok c =>
      rw [hex] at h
      cases hrest : shapeClasses rest with
      | error e => rw [hrest] at h; cases h
      | ok cs' =>
        rw [hrest] at h
        cases h
        have hnotin : c.value ∉ acc.map Prod.fst := by
          intro hmem
          exact (List.nodup_append.mp (by simpa using hn)).2.2 hmem
            (List.mem_cons_self _ _)
        have hn' : ((acc ++ [(c.value, sh)]).map Prod.fst ++
            (cs'.map TermT.value)).Nodup := by
          simpa [List.append_assoc] using hn
        simp only [buildShapeIndex, hex, mapSet_append acc c.value sh hnotin]
        rw [ih cs' (acc ++ [(c.value, sh)]) hrest hn']
        simp

/-- When every property shape has a path value, the per-property loop
succeeds, its WHERE and DELETE lines coincide, and it consumes one
variable index per property. -/
lemma shapePropsLoop_ok (m : String) (sh : StoreT) :
    ∀ (props : List TermT) (i : Nat),
      (∀ p ∈ props, getObjects sh (some p) (some shPathT) ≠ []) →
      shapePropsLoop m sh props i =
        .ok (specPropLines m sh props i, specPropLines m sh props i,
          i + props.length) := by
  intro props
  induction props with
  | nil => intro i _; simp [shapePropsLoop, specPropLines]
  | cons p rest ih =>
    intro i hp
    have hne := hp p (List.mem_cons_self p rest)
    rcases List.exists_cons_of_ne_nil hne with ⟨x, xs, hx⟩
    have hrec := ih (i + 1) (fun q hq => hp q (List.mem_cons_of_mem p hq))
    simp only [shapePropsLoop, hx, List.head?_cons, hrec, specPropLines,
      List.headD_cons, List.length_cons]
    have harith : i + 1 + rest.length = i + (rest.length + 1) := by omega
    rw [harith]

/-- The `shapeIndex.forEach` loop over an index with the configured
shapes as values produces exactly the spec-side WHERE blocks (one
`OPTIONAL` block per shape) and DELETE lines (the same patterns without
`OPTIONAL`). -/
lemma shapeBlocksLoop_ok (m : String) :
    ∀ (shapes : List StoreT) (vals : List String) (i : Nat),
      vals.length = shapes.length →
      (∀ sh ∈ shapes, ∀ p ∈ getObjects sh none (some shPropertyT),
          getObjects sh (some p) (some shPathT) ≠ []) →
      ∃ iEnd, shapeBlocksLoop m (vals.zip shapes) i =
        .ok (specWhereBlocks m shapes i, specDeleteBlocks m shapes i, iEnd) := by
  intro shapes
  induction shapes with
  | nil =>
    intro vals i hlen _
    have : vals = [] := List.eq_nil_of_length_eq_zero hlen
    subst this
    exact ⟨i, by simp [shapeBlocksLoop, specWhereBlocks, specDeleteBlocks]⟩
  | cons sh rest ih =>
    intro vals i hlen hp
    cases vals with
    | nil => simp at hlen
    | cons v vrest =>
      have hlen' : vrest.length = rest.length := by simpa using hlen
      have hhead := shapePropsLoop_ok m sh
        (getObjects sh none (some shPropertyT)) i
        (hp sh (List.mem_cons_self sh rest))
      rcases ih vrest (i + (getObjects sh none (some shPropertyT)).length)
          hlen' (fun s hs => hp s (List.mem_cons_of_mem sh hs)) with ⟨iEnd, hrest⟩
      refine ⟨iEnd, ?_⟩
      have hz : List.zipWith Prod.mk vrest rest = vrest.zip rest := rfl
      simp only [List.zip_cons_cons, shapeBlocksLoop, hhead, hz, hrest,
        specWhereBlocks, specDeleteBlocks]

/-- C6: for every Delete synthesis where member shapes are configured
(with extractable, pairwise-distinct main target classes and a path on
every declared property shape) and the store contains no `rdf:type`
triple for the member, the WHERE pattern is the bare member wildcard
pattern plus one `OPTIONAL` block per configured shape covering the
declared property paths of that shape, and the DELETE template is the
bare member wildcard pattern plus the same per-shape triple patterns
repeated without `OPTIONAL`. -/
theorem c6_delete_untyped_shape_pattern
    (memberStore : StoreT) (m : String) (shapes : List StoreT) (cs : List TermT)
    (hne : shapes ≠ [])
    (hcs : shapeClasses shapes = .ok cs)
    (hnd : (cs.map TermT.value).Nodup)
    (hpaths : ∀ sh ∈ shapes, ∀ p ∈ getObjects sh none (some shPropertyT),
        getObjects sh (some p) (some shPathT) ≠ [])
    (hnotype : getObjects memberStore (some (.namedNode m)) (some rdfTypeT) = []) :
    formatQuery memberStore (some m) shapes 0 =
      .ok [String.intercalate "\n" (memberLine m 0 :: specWhereBlocks m shapes 1),
           String.intercalate "\n" (memberLine m 0 :: specDeleteBlocks m shapes 1)] := by
  have hempty : shapes.isEmpty = false := by
    cases shapes with
    | nil => exact absurd rfl hne
    | cons a l => rfl
  have hidx := buildShapeIndex_ok shapes cs [] hcs (by simpa using hnd)
  rw [List.nil_append] at hidx
  have hlen : cs.length = shapes.length := shapeClasses_length shapes cs hcs
  rcases shapeBlocksLoop_ok m shapes (cs.map TermT.value) (0 + 1)
      (by simpa using hlen) hpaths with ⟨iEnd, hbl⟩
  simp only [formatQuery, hempty, Bool.false_eq_true, if_false, hidx, hnotype,
    List.head?_nil, hbl]

/-- A configured shape with target class `ex:Entity` declaring the path
`ex:prop2`. -/
def exShape1 : StoreT :=
  [triple (.namedNode "https://example.org/shapes/S1") rdfTypeT shNodeShapeT,
   triple (.namedNode "https://example.org/shapes/S1") shTargetClassT
     (.namedNode "https://example.org/ns#Entity"),
   triple (.namedNode "https://example.org/shapes/S1") shPropertyT (.blankNode "p1"),
   triple (.blankNode "p1") shPathT (.namedNode "https://example.org/ns#prop2")]

/-- A configured shape with target class `ex:Other` declaring the path
`ex:prop3`. -/
def exShape2 : StoreT :=
  [triple (.namedNode "https://example.org/shapes/S2") rdfTypeT shNodeShapeT,
   triple (.namedNode "https://example.org/shapes/S2") shTargetClassT
     (.namedNode "https://example.org/ns#Other"),
   triple (.namedNode "https://example.org/shapes/S2") shPropertyT (.blankNode "p2"),
   triple (.blankNode "p2") shPathT (.namedNode "https://example.org/ns#prop3")]

/-- A member store carrying no `rdf:type` triple for its member. -/
def exMemberStoreC6 : StoreT :=
  [triple (.namedNode "https://example.org/entity/E1")
     (.namedNode "https://example.org/ns#prop1")
     (.literal "x" "http://www.w3.org/2001/XMLSchema#string")]

/-- C6 witness: the untyped shape-pattern theorem applied to a member
with two configured candidate shapes. -/
theorem c6_delete_untyped_shape_pattern_witness :
    (([exShape1, exShape2] : List StoreT) ≠ [] ∧
     shapeClasses [exShape1, exShape2] =
       .ok [.namedNode "https://example.org/ns#Entity",
            .namedNode "https://example.org/ns#Other"] ∧
     (([TermT.namedNode "https://example.org/ns#Entity",
        TermT.namedNode "https://example.org/ns#Other"]).map TermT.value).Nodup ∧
     (∀ sh ∈ [exShape1, exShape2], ∀ p ∈ getObjects sh none (some shPropertyT),
        getObjects sh (some p) (some shPathT) ≠ []) ∧
     getObjects exMemberStoreC6
       (some (.namedNode "https://example.org/entity/E1")) (some rdfTypeT) = []) ∧
    formatQuery exMemberStoreC6 (some "https://example.org/entity/E1")
        [exShape1, exShape2] 0 =
      .ok [String.intercalate "\n"
             (memberLine "https://example.org/entity/E1" 0 ::
              specWhereBlocks "https://example.org/entity/E1" [exShape1, exShape2] 1),
           String.intercalate "\n"
             (memberLine "https://example.org/entity/E1" 0 ::
              specDeleteBlocks "https://example.org/entity/E1" [exShape1, exShape2] 1)] :=
  ⟨⟨by decide, rfl, by decide, by decide, rfl⟩,
   c6_delete_untyped_shape_pattern exMemberStoreC6 "https://example.org/entity/E1"
     [exShape1, exShape2]
     [.namedNode "https://example.org/ns#Entity",
      .namedNode "https://example.org/ns#Other"]
     (by decide) rfl (by decide) (by decide) rfl⟩
